import Mathlib

/-!
Shallow embedding of `src/modules/native-llm/android/src/main/cpp/native_llm_jni.cpp`.

The file under verification is a JNI bridge around the llama.cpp inference
engine.  The engine itself (tokenization, decoding, sampling) is external, so
it is modelled as an abstract `Engine`: a record of deterministic functions.
The bridge's own logic — the globals `g_model` / `g_ctx` / `g_cancelled`, the
handle check, the tokenize-buffer sizing, the sampler-chain construction, the
decode loop with its callbacks, and the final done callback — is embedded
faithfully below.

Asynchrony of the cancellation flag: `g_cancelled` is an `std::atomic<bool>`
that `nativeStop` may set from another thread while the decode loop runs.  The
value returned by `g_cancelled.load()` at the top of loop iteration `i` is
modelled by an oracle `cancel : Nat → Bool` supplied to `nativeGenerate`; the
write `g_cancelled.store(false)` performed by `nativeGenerate` itself is
recorded in the outcome (`resetCancel`), and `nativeStop`'s
`g_cancelled.store(true)` is modelled directly on the global state.
-/

namespace NativeLLM

/-- `LLAMA_TOKEN_NULL` from llama.h: the sentinel "no token" value, -1. -/
def LLAMA_TOKEN_NULL : Int := -1

/-- One stage of a llama.cpp sampler chain, as added by
`llama_sampler_chain_add` in `nativeGenerate` (lines 69-76).
`temp` carries the jfloat temperature value (modelled as a rational, since no
claim performs floating-point arithmetic on it, only pass-through);
`dist` carries the uint32 seed of the final categorical draw. -/
inductive SamplerStage where
  | topK (k : Int)
  | temp (t : Rat)
  | dist (seed : Nat)
  deriving DecidableEq, Repr

/-- A callback event delivered to the Java sink object:
`onToken(requestId, tokenText)` or `onDone(requestId, fullText)`. -/
inductive Event where
  | token (requestId : String) (text : String)
  | done (requestId : String) (text : String)
  deriving DecidableEq, Repr

/-- Is this event an `onToken` callback? -/
def Event.isToken : Event → Bool
  | .token _ _ => true
  | .done _ _ => false

/-- Is this event an `onDone` callback? -/
def Event.isDone : Event → Bool
  | .token _ _ => false
  | .done _ _ => true

/-- The text payload of an event. -/
def Event.text : Event → String
  | .token _ s => s
  | .done _ s => s

/-- The external llama.cpp engine, abstracted as deterministic functions.

* `tokenize p bufSize` models `llama_tokenize(vocab, p, strlen(p), buf,
  bufSize, true, false)`: it returns the count written (negative on failure)
  together with the buffer contents.
* `sample chain ctxState` models `llama_sampler_sample(smpl, ctx, -1)`: the
  token drawn by sampler chain `chain` when the context has decoded the token
  sequence `ctxState`.  (The dist sampler's RNG state is a deterministic
  function of its seed — part of `chain` — and of the draws already made,
  which are determined by `ctxState`, so this is a faithful deterministic
  abstraction.)
* `pieceOf t` models `llama_vocab_get_text(vocab, t)`, `none` for a null
  pointer. -/
structure Engine where
  tokenize : String → Int → Int × List Int
  sample : List SamplerStage → List Int → Int
  pieceOf : Int → Option String

/-- The file-scope globals of native_llm_jni.cpp (lines 7-9):
`g_model`, `g_ctx` (opaque pointers, `none` = nullptr) and `g_cancelled`. -/
structure GlobalState where
  g_model : Option Nat
  g_ctx : Option Nat
  g_cancelled : Bool
  deriving DecidableEq, Repr

/-- `Java_com_rork_native_llm_NativeLLM_nativeStop` (lines 40-43):
stores `true` into `g_cancelled`; the `requestId_` argument is read from JNI
but otherwise completely ignored. -/
def nativeStop (st : GlobalState) (requestId_ : String) : GlobalState :=
  { st with g_cancelled := true }

/-- `Java_com_rork_native_llm_NativeLLM_nativeFree` (lines 27-38):
frees the context behind `handle` if non-null, frees and nulls `g_model` if
non-null, and always nulls `g_ctx`.  After it runs, `g_model = none`
unconditionally (it was either freed-and-nulled or already null). -/
def nativeFree (st : GlobalState) (handle : Option Nat) : GlobalState :=
  { st with g_model := none, g_ctx := none }

/-- `static_cast<uint32_t>(seed)` applied to the jint `seed` (line 76). -/
def uint32OfJint (x : Int) : Nat := (x % (2 ^ 32 : Int)).toNat

/-- The sampler chain built in `nativeGenerate` lines 69-76: a top-K stage
only when `topK > 0`, then the temperature stage, then the seeded dist
(categorical draw) stage. -/
def buildSamplerChain (topK : Int) (temperature : Rat) (seed : Int) : List SamplerStage :=
  (if topK > 0 then [SamplerStage.topK topK] else [])
    ++ [SamplerStage.temp temperature, SamplerStage.dist (uint32OfJint seed)]

/-- The decode loop of `nativeGenerate` (lines 84-100):
`for (int i = 0; i < maxTokens && !g_cancelled.load(); ++i)`.

Arguments after the fixed ones: current loop index `i`, remaining iteration
budget (`maxTokens - i`, so the `i < maxTokens` bound is the fuel), the
context's decoded-token state, and the accumulated `output` string.  Returns
the list of `onToken` events emitted (in emission order) and the final
`output`.  Each iteration: load the flag, sample, break on
`LLAMA_TOKEN_NULL`, decode the new token (append to context state), look up
the piece text (empty for a null pointer), append it to `output`, emit
`onToken(requestId, piece)`. -/
def genLoop (eng : Engine) (chain : List SamplerStage) (cancel : Nat → Bool)
    (requestId : String) : Nat → Nat → List Int → String → List Event × String
  | _, 0, _, out => ([], out)
  | i, n + 1, ctxState, out =>
    if cancel i then ([], out)
    else
      let token := eng.sample chain ctxState
      if token = LLAMA_TOKEN_NULL then ([], out)
      else
        let piece := (eng.pieceOf token).getD ""
        let rest := genLoop eng chain cancel requestId (i + 1) n
          (ctxState ++ [token]) (out ++ piece)
        (Event.token requestId piece :: rest.1, rest.2)

/-- The observable outcome of one `nativeGenerate` call:
the callback events delivered to the sink (in order), whether the function
executed `g_cancelled.store(false)` (line 52), the `n_tokens_max` buffer size
passed to `llama_tokenize` (line 59, `none` if tokenization never ran), the
prompt token batch submitted to `llama_decode` in the prefill step
(lines 63-66, `none` if the prefill was skipped), and the sampler chain built
for the request (`none` if the function returned before building it). -/
structure GenOutcome where
  events : List Event
  resetCancel : Bool
  tokBufSize : Option Int
  promptPrefill : Option (List Int)
  chainUsed : Option (List SamplerStage)
  deriving DecidableEq, Repr

/-- The outcome of the early return at line 48: no callbacks, no writes. -/
def GenOutcome.noEffect : GenOutcome :=
  { events := [], resetCancel := false, tokBufSize := none,
    promptPrefill := none, chainUsed := none }

/-- `n_tokens_max = std::max(1024, text_len * 4 + 8)` where
`text_len = strlen(prompt)` (lines 56-57); `strlen` of the marshalled string
is its UTF-8 byte length. -/
def tokBufSizeOf (prompt : String) : Int :=
  max 1024 ((prompt.utf8ByteSize : Int) * 4 + 8)

/-- Line 60: `if (n_prompt < 0) n_prompt = 0;` — a failed tokenization
(negative count) is silently treated as an empty prompt. -/
def clampCount (n : Int) : Int := if n < 0 then 0 else n

/-- The prompt token batch prefilled into the context (lines 58-66): the
first `n_prompt` (clamped) tokens the tokenizer wrote into the
`n_tokens_max`-slot buffer.  Empty when tokenization failed. -/
def promptBatch (eng : Engine) (prompt : String) : List Int :=
  let tk := eng.tokenize prompt (tokBufSizeOf prompt)
  tk.2.take (clampCount tk.1).toNat

/-- `Java_com_rork_native_llm_NativeLLM_nativeGenerate` (lines 45-109).

`g_model` is the global model slot at call time; `handle` is the jlong
argument reinterpreted as a context pointer (`none` = 0); `cancel i` is the
value `g_cancelled.load()` returns at the top of loop iteration `i`.

Control flow, faithfully: if `!ctx || !g_model` return immediately (line 48);
otherwise store `false` to `g_cancelled` (line 52); tokenize into a buffer of
`tokBufSizeOf prompt` slots (lines 56-59); replace a negative count by 0
(line 60); if the count is positive, prefill the context with the token batch
(lines 63-66); build the sampler chain (lines 69-76); run the decode loop
(lines 84-100); finally call `onDone(requestId, output)` (line 103). -/
def nativeGenerate (eng : Engine) (g_model handle : Option Nat)
    (requestId_ prompt_ : String) (maxTokens : Int) (temperature : Rat)
    (topK : Int) (seed : Int) (cancel : Nat → Bool) : GenOutcome :=
  match handle, g_model with
  | none, _ => GenOutcome.noEffect
  | some _, none => GenOutcome.noEffect
  | some _, some _ =>
    let chain := buildSamplerChain topK temperature seed
    let lp := genLoop eng chain cancel requestId_ 0 maxTokens.toNat
      (promptBatch eng prompt_) ""
    { events := lp.1 ++ [Event.done requestId_ lp.2]
      resetCancel := true
      tokBufSize := some (tokBufSizeOf prompt_)
      promptPrefill :=
        if clampCount (eng.tokenize prompt_ (tokBufSizeOf prompt_)).1 > 0 then
          some (promptBatch eng prompt_)
        else none
      chainUsed := some chain }

/-- A concrete test engine: every prompt tokenizes to two tokens `[5, 6]`,
the sampler always draws token `7` (never `LLAMA_TOKEN_NULL`), and every
token renders as the piece `"t"`. -/
def engA : Engine :=
  { tokenize := fun _ _ => (2, [5, 6])
    sample := fun _ _ => 7
    pieceOf := fun _ => some "t" }

/-- A concrete test engine whose tokenizer always fails with count `-1`. -/
def engNeg : Engine :=
  { tokenize := fun _ _ => (-1, [])
    sample := fun _ _ => 7
    pieceOf := fun _ => some "x" }

/-! ### String helper lemmas -/

theorem string_append_assoc (a b c : String) : a ++ b ++ c = a ++ (b ++ c) := by
  apply String.ext
  simp [String.data_append]

theorem string_join_nil : String.join ([] : List String) = "" := rfl

theorem string_join_cons (a : String) (l : List String) :
    String.join (a :: l) = a ++ String.join l := by
  apply String.ext
  simp [String.data_join, String.data_append]

theorem string_append_empty (s : String) : s ++ "" = s := by
  apply String.ext
  simp [String.data_append]

theorem string_empty_append (s : String) : "" ++ s = s := by
  apply String.ext
  simp [String.data_append]

/-! ### Decode-loop lemmas -/

/-- Every event the decode loop emits is an `onToken` event carrying the
request id. -/
theorem genLoop_events_token (eng : Engine) (chain : List SamplerStage)
    (cancel : Nat → Bool) (rid : String) :
    ∀ (n i : Nat) (ctxState : List Int) (out : String),
      ∀ e ∈ (genLoop eng chain cancel rid i n ctxState out).1, ∃ s, e = Event.token rid s := by
  intro n
  induction n with
  | zero =>
    intro i ctx out e he
    simp [genLoop] at he
  | succ n ih =>
    intro i ctx out e he
    simp only [genLoop] at he
    split at he
    · simp at he
    · split at he
      · simp at he
      · simp only [List.mem_cons] at he
        rcases he with h | h
        · exact ⟨_, h⟩
        · exact ih _ _ _ _ h

/-- The final `output` string is the starting one followed by the
concatenation, in emission order, of the emitted token texts. -/
theorem genLoop_snd_eq (eng : Engine) (chain : List SamplerStage)
    (cancel : Nat → Bool) (rid : String) :
    ∀ (n i : Nat) (ctxState : List Int) (out : String),
      (genLoop eng chain cancel rid i n ctxState out).2
        = out ++ String.join (((genLoop eng chain cancel rid i n ctxState out).1).map Event.text) := by
  intro n
  induction n with
  | zero =>
    intro i ctx out
    simp [genLoop, string_join_nil, string_append_empty]
  | succ n ih =>
    intro i ctx out
    simp only [genLoop]
    split
    · simp [string_join_nil, string_append_empty]
    · split
      · simp [string_join_nil, string_append_empty]
      · simp only [List.map_cons, Event.text, string_join_cons, ← string_append_assoc]
        exact ih _ _ _

/-- The decode loop emits at most `n` (= remaining budget) token events. -/
theorem genLoop_length_le (eng : Engine) (chain : List SamplerStage)
    (cancel : Nat → Bool) (rid : String) :
    ∀ (n i : Nat) (ctxState : List Int) (out : String),
      (genLoop eng chain cancel rid i n ctxState out).1.length ≤ n := by
  intro n
  induction n with
  | zero => intro i ctx out; simp [genLoop]
  | succ n ih =>
    intro i ctx out
    simp only [genLoop]
    split
    · simp
    · split
      · simp
      · simpa using ih _ _ _

/-- When the cancellation flag is never observed set and the sampler never
returns `LLAMA_TOKEN_NULL`, the loop runs its full budget: exactly `n`
token events. -/
theorem genLoop_length_eq (eng : Engine) (chain : List SamplerStage)
    (cancel : Nat → Bool) (rid : String)
    (hc : ∀ j, cancel j = false)
    (hs : ∀ c cs, eng.sample c cs ≠ LLAMA_TOKEN_NULL) :
    ∀ (n i : Nat) (ctxState : List Int) (out : String),
      (genLoop eng chain cancel rid i n ctxState out).1.length = n := by
  intro n
  induction n with
  | zero => intro i ctx out; simp [genLoop]
  | succ n ih =>
    intro i ctx out
    simp only [genLoop, hc i, if_neg (hs chain ctx)]
    simpa using ih _ _ _

/-- If the observed cancellation flag is monotone (once set, it stays set —
`nativeStop` only ever stores `true`, and `nativeGenerate` resets it only
before the loop starts) and it is set by iteration `k`, then a loop starting
at index `i` emits at most `k - i` further token events: no iteration at
index ≥ `k` runs. -/
theorem genLoop_length_le_of_cancel (eng : Engine) (chain : List SamplerStage)
    (cancel : Nat → Bool) (rid : String)
    (hmono : ∀ i j, i ≤ j → cancel i = true → cancel j = true)
    (k : Nat) (hk : cancel k = true) :
    ∀ (n i : Nat) (ctxState : List Int) (out : String),
      (genLoop eng chain cancel rid i n ctxState out).1.length ≤ k - i := by
  intro n
  induction n with
  | zero => intro i ctx out; simp [genLoop]
  | succ n ih =>
    intro i ctx out
    simp only [genLoop]
    split
    · simp
    · rename_i hci
      have hik : i < k := by
        by_contra hle
        exact hci (hmono k i (Nat.le_of_not_lt hle) hk)
      split
      · simp
      · have := ih (i + 1) (ctx ++ [eng.sample chain ctx])
          (out ++ (eng.pieceOf (eng.sample chain ctx)).getD "")
        simp only [List.length_cons]
        omega

/-! ### Unfolding `nativeGenerate` on the valid path -/

/-- On a valid handle with a loaded model, `nativeGenerate` runs the decode
loop and reports its events followed by the final done event. -/
theorem nativeGenerate_valid_eq (eng : Engine) (m h : Nat) (rid prompt : String)
    (maxTokens : Int) (temperature : Rat) (topK seed : Int) (cancel : Nat → Bool) :
    nativeGenerate eng (some m) (some h) rid prompt maxTokens temperature topK seed cancel
      = { events :=
            (genLoop eng (buildSamplerChain topK temperature seed) cancel rid 0
              maxTokens.toNat (promptBatch eng prompt) "").1
            ++ [Event.done rid
                (genLoop eng (buildSamplerChain topK temperature seed) cancel rid 0
                  maxTokens.toNat (promptBatch eng prompt) "").2]
          resetCancel := true
          tokBufSize := some (tokBufSizeOf prompt)
          promptPrefill :=
            if clampCount (eng.tokenize prompt (tokBufSizeOf prompt)).1 > 0 then
              some (promptBatch eng prompt)
            else none
          chainUsed := some (buildSamplerChain topK temperature seed) } := rfl

/-- On the valid path the event trace is the loop's token events followed by
one final done event whose text is the concatenation of the token texts. -/
theorem nativeGenerate_valid_shape (eng : Engine) (m h : Nat) (rid prompt : String)
    (maxTokens : Int) (temperature : Rat) (topK seed : Int) (cancel : Nat → Bool) :
    (nativeGenerate eng (some m) (some h) rid prompt maxTokens temperature topK seed
        cancel).events
      = (genLoop eng (buildSamplerChain topK temperature seed) cancel rid 0
          maxTokens.toNat (promptBatch eng prompt) "").1
        ++ [Event.done rid (String.join
            (((genLoop eng (buildSamplerChain topK temperature seed) cancel rid 0
              maxTokens.toNat (promptBatch eng prompt) "").1).map Event.text))] := by
  rw [nativeGenerate_valid_eq, genLoop_snd_eq, string_empty_append]

/-! ### Claim theorems -/

/-- C1: on a valid handle with maxTokens = N > 0, when the cancellation flag
is never observed set and the sampler never returns the end marker, exactly N
onToken events are emitted, in generation order, followed by one onDone whose
text equals the concatenation, in emission order, of the N token texts. -/
theorem C1_full_budget_token_count (eng : Engine) (m h : Nat) (rid prompt : String)
    (maxTokens : Int) (temperature : Rat) (topK seed : Int)
    (hpos : 0 < maxTokens)
    (hs : ∀ c cs, eng.sample c cs ≠ LLAMA_TOKEN_NULL) :
    ∃ toks : List Event,
      (nativeGenerate eng (some m) (some h) rid prompt maxTokens temperature topK seed
          (fun _ => false)).events
        = toks ++ [Event.done rid (String.join (toks.map Event.text))]
      ∧ (toks.length : Int) = maxTokens
      ∧ (∀ e ∈ toks, ∃ s, e = Event.token rid s) := by
  refine ⟨_, nativeGenerate_valid_shape eng m h rid prompt maxTokens temperature topK seed
    (fun _ => false), ?_, genLoop_events_token eng _ _ rid _ _ _ _⟩
  rw [genLoop_length_eq eng _ _ rid (fun _ => rfl) hs]
  exact Int.toNat_of_nonneg (le_of_lt hpos)

/-- Witness for C1 at a concrete engine and inputs. -/
theorem C1_witness :
    ∃ toks : List Event,
      (nativeGenerate engA (some 0) (some 1) "r" "p" 3 1 40 42
          (fun _ => false)).events
        = toks ++ [Event.done "r" (String.join (toks.map Event.text))]
      ∧ (toks.length : Int) = 3
      ∧ (∀ e ∈ toks, ∃ s, e = Event.token "r" s) :=
  C1_full_budget_token_count engA 0 1 "r" "p" 3 1 40 42 (by decide)
    (fun _ _ => show (7 : Int) ≠ LLAMA_TOKEN_NULL by decide)

/-- C2 (amended): on every call that passes the handle/model validity check,
whatever the exit path of the loop, onDone is invoked exactly once, as the
last event, and every earlier event is an onToken. -/
theorem C2_done_last_exactly_once (eng : Engine) (m h : Nat) (rid prompt : String)
    (maxTokens : Int) (temperature : Rat) (topK seed : Int) (cancel : Nat → Bool) :
    ∃ (toks : List Event) (txt : String),
      (nativeGenerate eng (some m) (some h) rid prompt maxTokens temperature topK seed
          cancel).events
        = toks ++ [Event.done rid txt]
      ∧ ∀ e ∈ toks, ∃ s, e = Event.token rid s :=
  ⟨_, _, nativeGenerate_valid_shape eng m h rid prompt maxTokens temperature topK seed cancel,
    genLoop_events_token eng _ _ rid _ _ _ _⟩

/-- C2 as stated is false: the early return for a null handle (line 48) is an
exit path of `generate` on which onDone is never invoked — the call emits no
events at all, so onDone is invoked zero times, not exactly once. -/
theorem C2_counterexample :
    (nativeGenerate engA (some 0) none "r" "p" 3 1 40 42 (fun _ => false)).events = []
      ∧ ((nativeGenerate engA (some 0) none "r" "p" 3 1 40 42
          (fun _ => false)).events.countP Event.isDone) = 0 :=
  ⟨rfl, rfl⟩

/-- C3: once the observed cancellation flag — monotone, since `nativeStop`
only ever stores true and `nativeGenerate` resets it only before the loop —
is set by iteration k, the decode loop performs no iteration with index ≥ k
(at most k onToken events in total), and the call still emits exactly one
onDone carrying the text accumulated so far. -/
theorem C3_stop_bounds_loop (eng : Engine) (m h : Nat) (rid prompt : String)
    (maxTokens : Int) (temperature : Rat) (topK seed : Int) (cancel : Nat → Bool)
    (k : Nat)
    (hmono : ∀ i j, i ≤ j → cancel i = true → cancel j = true)
    (hk : cancel k = true) :
    ∃ toks : List Event,
      (nativeGenerate eng (some m) (some h) rid prompt maxTokens temperature topK seed
          cancel).events
        = toks ++ [Event.done rid (String.join (toks.map Event.text))]
      ∧ toks.length ≤ k
      ∧ (∀ e ∈ toks, ∃ s, e = Event.token rid s) := by
  refine ⟨_, nativeGenerate_valid_shape eng m h rid prompt maxTokens temperature topK seed
    cancel, ?_, genLoop_events_token eng _ _ rid _ _ _ _⟩
  simpa using genLoop_length_le_of_cancel eng _ cancel rid hmono k hk maxTokens.toNat 0
    (promptBatch eng prompt) ""

/-- Witness for C3: flag already set at iteration 0 — zero tokens, one done. -/
theorem C3_witness :
    ∃ toks : List Event,
      (nativeGenerate engA (some 0) (some 1) "r" "p" 5 1 40 42
          (fun _ => true)).events
        = toks ++ [Event.done "r" (String.join (toks.map Event.text))]
      ∧ toks.length ≤ 0
      ∧ (∀ e ∈ toks, ∃ s, e = Event.token "r" s) :=
  C3_stop_bounds_loop engA 0 1 "r" "p" 5 1 40 42 (fun _ => true) 0
    (fun _ _ _ hh => hh) rfl

/-- C4: on a valid handle with maxTokens = 0, zero onToken events occur and
exactly one onDone is invoked, whose text is empty. -/
theorem C4_zero_budget_empty_done (eng : Engine) (m h : Nat) (rid prompt : String)
    (temperature : Rat) (topK seed : Int) (cancel : Nat → Bool) :
    (nativeGenerate eng (some m) (some h) rid prompt 0 temperature topK seed cancel).events
      = [Event.done rid ""] := rfl

/-- C5: generation is a deterministic function of its inputs — two calls with
engines that agree pointwise (the engine's sampling being deterministic in
the seed), the same model/handle, prompt and parameters, each on a fresh
session with no cancellation, produce identical outcomes, in particular
identical token sequences and identical final texts. -/
theorem C5_determinism (e1 e2 : Engine) (gm handle : Option Nat) (rid prompt : String)
    (maxTokens : Int) (temperature : Rat) (topK seed : Int)
    (ht : e1.tokenize = e2.tokenize) (hsm : e1.sample = e2.sample)
    (hp : e1.pieceOf = e2.pieceOf) :
    nativeGenerate e1 gm handle rid prompt maxTokens temperature topK seed (fun _ => false)
      = nativeGenerate e2 gm handle rid prompt maxTokens temperature topK seed
          (fun _ => false) := by
  have he : e1 = e2 := by
    cases e1
    cases e2
    congr 1
  rw [he]

/-- Witness for C5 at a concrete engine. -/
theorem C5_witness :
    nativeGenerate engA (some 0) (some 1) "r" "p" 4 1 40 42 (fun _ => false)
      = nativeGenerate engA (some 0) (some 1) "r" "p" 4 1 40 42 (fun _ => false) :=
  C5_determinism engA engA (some 0) (some 1) "r" "p" 4 1 40 42 rfl rfl rfl

/-- C6: each request's tokens are selected by a sampler chain built in this
exact order — a top-K stage included iff topK > 0, then the temperature stage
(the temperature passed through unmodified), then the final categorical draw
seeded by the (uint32-cast) seed. -/
theorem C6_sampler_chain_order (eng : Engine) (m h : Nat) (rid prompt : String)
    (maxTokens : Int) (temperature : Rat) (topK seed : Int) (cancel : Nat → Bool) :
    (nativeGenerate eng (some m) (some h) rid prompt maxTokens temperature topK seed
        cancel).chainUsed
      = some ((if topK > 0 then [SamplerStage.topK topK] else [])
          ++ [SamplerStage.temp temperature, SamplerStage.dist (uint32OfJint seed)]) := rfl

/-- C7: the tokenizer is handed a buffer of exactly max(1024, 4·byte-length
+ 8) slots; and when tokenization fails (negative count) the count is treated
as zero — the prefill is skipped, the prompt context is empty, and generation
proceeds to a normal completion rather than aborting or reporting an error. -/
theorem C7_token_buffer_and_lenient_failure (eng : Engine) (m h : Nat)
    (rid prompt : String) (maxTokens : Int) (temperature : Rat) (topK seed : Int)
    (cancel : Nat → Bool) :
    (nativeGenerate eng (some m) (some h) rid prompt maxTokens temperature topK seed
        cancel).tokBufSize
      = some (max 1024 ((prompt.utf8ByteSize : Int) * 4 + 8))
    ∧ ((eng.tokenize prompt (tokBufSizeOf prompt)).1 < 0 →
        (nativeGenerate eng (some m) (some h) rid prompt maxTokens temperature topK seed
            cancel).promptPrefill = none
        ∧ promptBatch eng prompt = []
        ∧ ∃ (toks : List Event) (txt : String),
            (nativeGenerate eng (some m) (some h) rid prompt maxTokens temperature topK
                seed cancel).events
              = toks ++ [Event.done rid txt]) := by
  refine ⟨rfl, fun hneg => ⟨?_, ?_, _, _,
    nativeGenerate_valid_shape eng m h rid prompt maxTokens temperature topK seed cancel⟩⟩
  · rw [nativeGenerate_valid_eq]
    simp [clampCount, hneg]
  · simp [promptBatch, clampCount, hneg]

/-- Witness for C7 at an engine whose tokenizer fails. -/
theorem C7_witness :
    (nativeGenerate engNeg (some 0) (some 1) "r" "hi" 2 1 40 42
        (fun _ => false)).tokBufSize
      = some (max 1024 ((("hi" : String).utf8ByteSize : Int) * 4 + 8))
    ∧ (nativeGenerate engNeg (some 0) (some 1) "r" "hi" 2 1 40 42
        (fun _ => false)).promptPrefill = none
    ∧ promptBatch engNeg "hi" = []
    ∧ ∃ (toks : List Event) (txt : String),
        (nativeGenerate engNeg (some 0) (some 1) "r" "hi" 2 1 40 42
            (fun _ => false)).events
          = toks ++ [Event.done "r" txt] := by
  have hmain := C7_token_buffer_and_lenient_failure engNeg 0 1 "r" "hi" 2 1 40 42
    (fun _ => false)
  have hneg : (engNeg.tokenize "hi" (tokBufSizeOf "hi")).1 < 0 := by decide
  exact ⟨hmain.1, (hmain.2 hneg).1, (hmain.2 hneg).2.1, (hmain.2 hneg).2.2⟩

/-- C8: `stop` ignores its requestId — stopping with any two ids r1, r2 has
the identical effect on the global state: the shared cancellation flag is set
to true, everything else is untouched. -/
theorem C8_stop_ignores_requestId (st : GlobalState) (r1 r2 : String) :
    nativeStop st r1 = nativeStop st r2
      ∧ (nativeStop st r1).g_cancelled = true
      ∧ (nativeStop st r1).g_model = st.g_model
      ∧ (nativeStop st r1).g_ctx = st.g_ctx :=
  ⟨rfl, rfl, rfl, rfl⟩

/-- C9: after `free`, the global model slot is null, so a subsequent
`generate` — with any handle value, including the stale one — rejects the
call: it returns immediately with no callbacks and no writes, rather than
touching freed state. -/
theorem C9_generate_after_free_rejected (st : GlobalState) (freeArg : Option Nat)
    (eng : Engine) (handle : Option Nat) (rid prompt : String) (maxTokens : Int)
    (temperature : Rat) (topK seed : Int) (cancel : Nat → Bool) :
    nativeGenerate eng (nativeFree st freeArg).g_model handle rid prompt maxTokens
        temperature topK seed cancel = GenOutcome.noEffect := by
  cases handle <;> rfl

/-- C10: when the handle is null or no model is loaded, `generate` returns
immediately — no onToken, no onDone, no tokenizer call, no sampler chain, and
the cancellation flag is not written; the flag is reset to false (only) when
the validity check passes. -/
theorem C10_invalid_handle_no_effect (eng : Engine) (gm handle : Option Nat)
    (rid prompt : String) (maxTokens : Int) (temperature : Rat) (topK seed : Int)
    (cancel : Nat → Bool) :
    nativeGenerate eng gm none rid prompt maxTokens temperature topK seed cancel
        = GenOutcome.noEffect
      ∧ nativeGenerate eng none handle rid prompt maxTokens temperature topK seed cancel
        = GenOutcome.noEffect
      ∧ ∀ m h : Nat,
          (nativeGenerate eng (some m) (some h) rid prompt maxTokens temperature topK
              seed cancel).resetCancel = true := by
  refine ⟨rfl, ?_, fun m h => rfl⟩
  cases handle <;> rfl

end NativeLLM
